import Mathlib

/-!
Verification of the qfsadmin meta-server administration utility
(src/cc/tools/qfsadmin_main.cc): the static command registry, the sequential
command dispatcher, and the invocation/help surface, shallowly embedded.

Strings are modelled as lists of byte values (List Nat); the remote-execution
collaborator (MonClient) is modelled as an environment of oracle functions and
the observable behaviour of a run as a trace of events.
-/

namespace QfsAdmin

/-- Byte string of an ASCII Lean string literal (all names and messages in the
source are ASCII, so the code-point equals the byte value). -/
def bytes (s : String) : List Nat := s.data.map Char.toNat

/-- Embedding of ToLower's per-character step: the source applies
tolower to the char masked with 0xFF; in the C locale tolower lowercases
exactly the ASCII uppercase letters and passes every other byte through. -/
def toLowerByte (b : Nat) : Nat :=
  if 65 ≤ b % 256 ∧ b % 256 ≤ 90 then b % 256 + 32 else b % 256

/-- Embedding of ToLower (qfsadmin_main.cc lines 74-84). -/
def ToLower (s : List Nat) : List Nat := s.map toLowerByte

/-- Operation codes of the eight CMD_META_ admin operations. Modelled from the
spec: the KfsOp_t enumerators CMD_META_* come from libclient/KfsOps.h, which is
not part of this repository slice; the spec's catalog table gives each entry a
distinct opcode identity, so they are modelled as distinct constructors. -/
inductive MetaOp where
  | CHECK_LEASES
  | RECOMPUTE_DIRSIZE
  | DUMP_CHUNKTOSERVERMAP
  | DUMP_CHUNKREPLICATIONCANDIDATES
  | OPEN_FILES
  | GET_CHUNK_SERVERS_COUNTERS
  | GET_CHUNK_SERVER_DIRS_COUNTERS
  | GET_REQUEST_COUNTERS
deriving DecidableEq, Repr

/-- The value type stored in the admin-ops map: the pair
(display name, (opcode, description)) of the source, flattened. -/
structure CommandSpec where
  displayName : List Nat
  opcode : MetaOp
  description : List Nat
deriving DecidableEq, Repr

/-- The KfsForEachMetaOpId catalog (lines 56-72), in macro-application order;
adjacent string literal pieces of the source are concatenated. -/
def catalog : List (String × MetaOp × String) :=
  [ ("CHECK_LEASES", MetaOp.CHECK_LEASES,
      "debug: run chunk leases check"),
    ("RECOMPUTE_DIRSIZE", MetaOp.RECOMPUTE_DIRSIZE,
      "debug: recompute directories sizes"),
    ("DUMP_CHUNKTOSERVERMAP", MetaOp.DUMP_CHUNKTOSERVERMAP,
      "create chunk server to chunk id map file used by the off line re-balance utility and layout emulator"),
    ("DUMP_CHUNKREPLICATIONCANDIDATES", MetaOp.DUMP_CHUNKREPLICATIONCANDIDATES,
      "debug: list content of the chunks re-replication and recovery queues"),
    ("OPEN_FILES", MetaOp.OPEN_FILES,
      "debug: list all chunk leases"),
    ("GET_CHUNK_SERVERS_COUNTERS", MetaOp.GET_CHUNK_SERVERS_COUNTERS,
      "stats: output chunk server counters"),
    ("GET_CHUNK_SERVER_DIRS_COUNTERS", MetaOp.GET_CHUNK_SERVER_DIRS_COUNTERS,
      "stats: output chunk directories counters"),
    ("GET_REQUEST_COUNTERS", MetaOp.GET_REQUEST_COUNTERS,
      "stats: get meta server request counters") ]

/-- Lexicographic comparison of byte strings: std::string operator< used by
std::map to order its keys. -/
def strLt : List Nat → List Nat → Bool
  | [], [] => false
  | [], _ :: _ => true
  | _ :: _, [] => false
  | a :: as, b :: bs => if a < b then true else if b < a then false else strLt as bs

/-- Insertion into the key-ordered association list modelling std::map
assignment through operator[]: keeps keys strictly ascending, replaces the
value on an existing key. -/
def mapInsert (k : List Nat) (v : CommandSpec) :
    List (List Nat × CommandSpec) → List (List Nat × CommandSpec)
  | [] => [(k, v)]
  | (k1, v1) :: rest =>
    if strLt k k1 then (k, v) :: (k1, v1) :: rest
    else if k = k1 then (k, v) :: rest
    else (k1, v1) :: mapInsert k v rest

/-- Embedding of MakeMetaAdminOpsMap (lines 91-110): insert every catalog
entry under its lowercased key, tracking the maximum key length. -/
def sOpsAndLen : List (List Nat × CommandSpec) × Nat :=
  catalog.foldl
    (fun acc e =>
      let theName := ToLower (bytes e.1)
      (mapInsert theName ⟨bytes e.1, e.2.1, bytes e.2.2⟩ acc.1,
       max acc.2 theName.length))
    ([], 0)

/-- sMetaAdminOpsMap (line 111). -/
def sOps : List (List Nat × CommandSpec) := sOpsAndLen.1

/-- sMetaAdminOpMaxLen (line 112). -/
def sMaxCmdNameLen : Nat := sOpsAndLen.2

/-- std::map::find on the ordered association list. -/
def mapFind (k : List Nat) : List (List Nat × CommandSpec) → Option CommandSpec
  | [] => none
  | (k1, v1) :: rest => if k = k1 then some v1 else mapFind k rest

/-- Command resolution as the dispatcher performs it (lines 198-199):
find the lowercased token in the admin-ops map. -/
def Lookup (s : List Nat) : Option CommandSpec := mapFind (ToLower s) sOps

/-- setw right-justification: pad with spaces on the left up to width w
(no truncation when the string is longer). -/
def padTo (w : Nat) (s : List Nat) : List Nat :=
  List.replicate (w - s.length) 32 ++ s

/-- The lines CmdHelp(0) writes to standard output (lines 128-134): one line
per map entry, in map iteration order, key right-aligned with setw. -/
def cmdHelpAllLines : List (List Nat) :=
  sOps.map (fun e => padTo sMaxCmdNameLen e.1 ++ bytes " -- " ++ e.2.description ++ [10])

/-- The result MonClient::Execute leaves behind for one remote call: its
return value (statusCode) and the fields of the MetaMonOp it filled in. -/
structure ExecutionOutcome where
  statusCode : Int
  statusMsg : List Nat
  contentLength : Int
  contentBuf : List Nat

/-- The external collaborator: the result of MonClient::SetParameters, the
outcome of the i-th remote Execute call of the run, and ErrorCodeToStr. -/
structure Env where
  setParametersResult : Int
  exec : Nat → ExecutionOutcome
  errorCodeToStr : Int → List Nat

/-- Observable events of a run: bytes to standard output, bytes to the error
channel, an error-level log record, and the collaborator calls. -/
inductive Ev where
  | out (bs : List Nat)
  | err (bs : List Nat)
  | logErr (bs : List Nat)
  | setParameters (host : List Nat) (port : Int) (config : Option (List Nat))
  | setMaxContentLength (n : Nat)
  | execCall (op : MetaOp) (displayName : List Nat)
deriving DecidableEq, Repr

/-- What processing one command token produces: its events, whether a remote
call was consumed, and whether it set theRetCode to 1. -/
structure TokenStep where
  events : List Ev
  usedCall : Bool
  failed : Bool

/-- Embedding of one iteration of the dispatch loop (lines 197-221) for token
tok, where k is the index of the next remote call of the run. An unresolved
token prints the no-such-command line to the error channel (and nothing else);
a resolved token issues exactly one remote call, then either logs the failure
(statusCode < 0), prints the OK line keyed by the map key (contentLength <= 0),
or writes contentLength bytes of the content buffer to standard output. -/
def processToken (env : Env) (k : Nat) (tok : List Nat) : TokenStep :=
  match Lookup tok with
  | none => ⟨[Ev.err (bytes "no such command: " ++ tok ++ [10])], false, false⟩
  | some spec =>
    let o := env.exec k
    if o.statusCode < 0 then
      ⟨[Ev.execCall spec.opcode spec.displayName,
        Ev.logErr (o.statusMsg ++ bytes " error: " ++ env.errorCodeToStr o.statusCode)],
       true, true⟩
    else if o.contentLength ≤ 0 then
      ⟨[Ev.execCall spec.opcode spec.displayName,
        Ev.out (ToLower tok ++ bytes " OK" ++ [10])],
       true, false⟩
    else
      ⟨[Ev.execCall spec.opcode spec.displayName,
        Ev.out (o.contentBuf.take o.contentLength.toNat)],
       true, false⟩

/-- The dispatch loop over the token list: k counts remote calls issued so
far, ret is the current theRetCode; returns the events and the final
theRetCode. -/
def runTokens (env : Env) : List (List Nat) → Nat → Nat → List Ev × Nat
  | [], _, ret => ([], ret)
  | tok :: rest, k, ret =>
    let st := processToken env k tok
    let next := runTokens env rest (k + (if st.usedCall then 1 else 0))
      (if st.failed then 1 else ret)
    (st.events ++ next.1, next.2)

/-- One processed getopt result, mirroring the cases of the option switch
(lines 150-172); unrecognized covers the default case. -/
inductive Opt where
  | server (arg : List Nat)
  | portOpt (arg : List Nat)
  | help
  | verbose
  | configFile (arg : List Nat)
  | unrecognized
deriving DecidableEq, Repr

/-- C atoi digit loop: accumulate decimal digits, stop at the first
non-digit. -/
def atoiDigits : List Nat → Nat → Nat
  | [], acc => acc
  | b :: rest, acc =>
    if 48 ≤ b ∧ b ≤ 57 then atoiDigits rest (acc * 10 + (b - 48)) else acc

/-- C isspace bytes skipped by atoi. -/
def isSpaceB (b : Nat) : Bool := b = 32 ∨ (9 ≤ b ∧ b ≤ 13)

/-- C isdigit. -/
def isDigitB (b : Nat) : Bool := 48 ≤ b ∧ b ≤ 57

/-- C atoi after whitespace skipping: an optional sign (45 is the minus
sign, 43 the plus sign) followed by the digit loop. -/
def atoiSigned : List Nat → Int
  | [] => (atoiDigits [] 0 : Int)
  | b :: rest =>
    if b = 45 then -(atoiDigits rest 0 : Int)
    else if b = 43 then (atoiDigits rest 0 : Int)
    else (atoiDigits (b :: rest) 0 : Int)

/-- C atoi: skip whitespace, optional sign, then decimal digits; a string
with no leading digits converts to 0. -/
def atoi (s : List Nat) : Int := atoiSigned (s.dropWhile isSpaceB)

/-- The list does not start with a decimal digit. -/
def noDigitHead : List Nat → Bool
  | [] => true
  | c :: _ => ! isDigitB c

/-- After the optional sign there is no decimal digit. -/
def noLeadSigned : List Nat → Bool
  | [] => true
  | b :: rest => if b = 45 ∨ b = 43 then noDigitHead rest else ! isDigitB b

/-- The port argument has no leading digits: after optional whitespace and an
optional sign there is no decimal digit, so it is not a valid number for
atoi and the conversion yields 0. -/
def noLeadingDigits (s : List Nat) : Bool := noLeadSigned (s.dropWhile isSpaceB)

/-- The option-parsing state of Main (lines 142-147): help flag, server,
port, config file, verbose flag, and theRetCode. -/
structure Args where
  helpFlag : Bool
  server : Option (List Nat)
  port : Int
  configFile : Option (List Nat)
  verbose : Bool
  retCode : Nat
deriving DecidableEq, Repr

/-- Initial values of Main's locals (lines 142-147). -/
def initArgs : Args := ⟨false, none, -1, none, false, 0⟩

/-- One case of the option switch (lines 151-171). -/
def applyOpt (a : Args) : Opt → Args
  | Opt.server h => { a with server := some h }
  | Opt.portOpt s => { a with port := atoi s }
  | Opt.help => { a with helpFlag := true }
  | Opt.verbose => { a with verbose := true }
  | Opt.configFile f => { a with configFile := some f }
  | Opt.unrecognized => { a with retCode := 1 }

/-- The whole getopt loop (lines 150-172). -/
def parseOpts (opts : List Opt) : Args := opts.foldl applyOpt initArgs

/-- The usage banner text (lines 175-183); adjacent string literals of the
source concatenate, so no newline separates the ... from Where. -/
def usageText (progName : List Nat) : List Nat :=
  bytes "Usage: " ++ progName ++
    bytes "\n -m|-s <meta server host name>\n -p <port>\n -f <config file name>\n [-v]\n --  <cmd> <cmd> ...Where cmd is one of the following:\n"

/-- Events of the usage/help branch (lines 174-185): the banner goes to
standard output when help was requested and to the error channel otherwise;
CmdHelp(0) then writes the full listing, always to standard output. -/
def helpEvents (helpFlag : Bool) (progName : List Nat) : List Ev :=
  (if helpFlag then Ev.out (usageText progName) else Ev.err (usageText progName)) ::
    cmdHelpAllLines.map Ev.out

/-- Embedding of Main (lines 137-223) after getopt has split the argument
vector into the recognized options and the remaining positional tokens:
returns the process exit code and the event trace. -/
def Main (env : Env) (progName : List Nat) (opts : List Opt)
    (tokens : List (List Nat)) : Nat × List Ev :=
  let a := parseOpts opts
  if a.helpFlag ∨ a.server = none ∨ a.port < 0 then
    ((if a.helpFlag then a.retCode else 1), helpEvents a.helpFlag progName)
  else
    let setupEv := Ev.setParameters (a.server.getD []) a.port a.configFile
    if env.setParametersResult < 0 then
      (1, [setupEv])
    else
      let r := runTokens env tokens 0 a.retCode
      (r.2, setupEv :: Ev.setMaxContentLength 536870912 :: r.1)

/-- Remote calls recorded in a trace, in order. -/
def callsOf (evs : List Ev) : List (MetaOp × List Nat) :=
  evs.filterMap (fun e =>
    match e with
    | Ev.execCall op d => some (op, d)
    | _ => none)

/-- Standard-output writes recorded in a trace, in order. -/
def outsOf (evs : List Ev) : List (List Nat) :=
  evs.filterMap (fun e =>
    match e with
    | Ev.out bs => some bs
    | _ => none)

/-- Error-channel writes recorded in a trace, in order. -/
def errsOf (evs : List Ev) : List (List Nat) :=
  evs.filterMap (fun e =>
    match e with
    | Ev.err bs => some bs
    | _ => none)

/-- Error-level log records of a trace, in order. -/
def logsOf (evs : List Ev) : List (List Nat) :=
  evs.filterMap (fun e =>
    match e with
    | Ev.logErr bs => some bs
    | _ => none)

/-- SetMaxContentLength calls recorded in a trace, in order. -/
def maxLenSets (evs : List Ev) : List Nat :=
  evs.filterMap (fun e =>
    match e with
    | Ev.setMaxContentLength n => some n
    | _ => none)

/-- The remote calls a token list should produce: one per resolved token, in
token order, tagged with the resolved opcode and display name. -/
def resolvedCalls (toks : List (List Nat)) : List (MetaOp × List Nat) :=
  toks.filterMap (fun t => (Lookup t).map (fun s => (s.opcode, s.displayName)))

/-- Number of tokens of the list that resolve against the registry. -/
def resolvedCount (toks : List (List Nat)) : Nat :=
  (toks.filter (fun t => (Lookup t).isSome)).length

/-- A collaborator whose every call succeeds with an empty payload. -/
def env0 : Env :=
  ⟨0, fun _ => ⟨0, [], 0, []⟩, fun _ => []⟩

/-- A collaborator whose every call fails with status -5 and message boom. -/
def env5 : Env :=
  ⟨0, fun _ => ⟨-5, bytes "boom", 0, []⟩, fun _ => bytes "Permission denied"⟩

/-- A collaborator whose every call succeeds with a 5-byte payload. -/
def env6 : Env :=
  ⟨0, fun _ => ⟨0, [], 5, bytes "hello"⟩, fun _ => []⟩

/-- A collaborator whose configuration (SetParameters) fails. -/
def envBad : Env :=
  ⟨-1, fun _ => ⟨0, [], 0, []⟩, fun _ => []⟩

/-! ## Lemmas about the dispatch loop and the trace projections -/

theorem runTokens_ret_one (env : Env) (toks : List (List Nat)) (k : Nat) :
    (runTokens env toks k 1).2 = 1 := by
  induction toks generalizing k with
  | nil => simp [runTokens]
  | cons tok rest ih => simp [runTokens, ih]

theorem callsOf_append (a b : List Ev) : callsOf (a ++ b) = callsOf a ++ callsOf b := by
  simp [callsOf]

theorem callsOf_cons_setParameters (h : List Nat) (p : Int) (c : Option (List Nat))
    (l : List Ev) : callsOf (Ev.setParameters h p c :: l) = callsOf l := by
  simp [callsOf]

theorem callsOf_cons_setMax (n : Nat) (l : List Ev) :
    callsOf (Ev.setMaxContentLength n :: l) = callsOf l := by
  simp [callsOf]

theorem maxLenSets_cons_setParameters (h : List Nat) (p : Int) (c : Option (List Nat))
    (l : List Ev) : maxLenSets (Ev.setParameters h p c :: l) = maxLenSets l := by
  simp [maxLenSets]

theorem maxLenSets_cons_setMax (n : Nat) (l : List Ev) :
    maxLenSets (Ev.setMaxContentLength n :: l) = n :: maxLenSets l := by
  simp [maxLenSets]

theorem callsOf_processToken (env : Env) (k : Nat) (tok : List Nat) :
    callsOf (processToken env k tok).events =
      ((Lookup tok).map (fun s => (s.opcode, s.displayName))).toList := by
  cases h : Lookup tok with
  | none => simp [processToken, h, callsOf]
  | some spec =>
    by_cases hs : (env.exec k).statusCode < 0
    · simp [processToken, h, hs, callsOf]
    · by_cases hc : (env.exec k).contentLength ≤ 0 <;>
        simp [processToken, h, hs, hc, callsOf]

theorem maxLenSets_processToken (env : Env) (k : Nat) (tok : List Nat) :
    maxLenSets (processToken env k tok).events = [] := by
  cases h : Lookup tok with
  | none => simp [processToken, h, maxLenSets]
  | some spec =>
    by_cases hs : (env.exec k).statusCode < 0
    · simp [processToken, h, hs, maxLenSets]
    · by_cases hc : (env.exec k).contentLength ≤ 0 <;>
        simp [processToken, h, hs, hc, maxLenSets]

theorem resolvedCalls_cons (tok : List Nat) (rest : List (List Nat)) :
    resolvedCalls (tok :: rest) =
      ((Lookup tok).map (fun s => (s.opcode, s.displayName))).toList
        ++ resolvedCalls rest := by
  cases h : Lookup tok <;> simp [resolvedCalls, List.filterMap_cons, h]

theorem callsOf_runTokens (env : Env) (toks : List (List Nat)) (k ret : Nat) :
    callsOf (runTokens env toks k ret).1 = resolvedCalls toks := by
  induction toks generalizing k ret with
  | nil => simp [runTokens, callsOf, resolvedCalls]
  | cons tok rest ih =>
    simp only [runTokens, callsOf_append, callsOf_processToken, resolvedCalls_cons, ih]

theorem maxLenSets_append (a b : List Ev) :
    maxLenSets (a ++ b) = maxLenSets a ++ maxLenSets b := by
  simp [maxLenSets]

theorem maxLenSets_runTokens (env : Env) (toks : List (List Nat)) (k ret : Nat) :
    maxLenSets (runTokens env toks k ret).1 = [] := by
  induction toks generalizing k ret with
  | nil => simp [runTokens, maxLenSets]
  | cons tok rest ih =>
    simp only [runTokens, maxLenSets_append, maxLenSets_processToken, ih]
    simp

theorem resolvedCount_cons_none (tok : List Nat) (rest : List (List Nat))
    (h : Lookup tok = none) :
    resolvedCount (tok :: rest) = resolvedCount rest := by
  simp [resolvedCount, List.filter_cons, h]

theorem resolvedCount_cons_some (tok : List Nat) (rest : List (List Nat))
    (spec : CommandSpec) (h : Lookup tok = some spec) :
    resolvedCount (tok :: rest) = resolvedCount rest + 1 := by
  simp [resolvedCount, List.filter_cons, h]

theorem runTokens_snd_eq_zero (env : Env) (toks : List (List Nat)) (k ret : Nat) :
    ((runTokens env toks k ret).2 = 0 ↔
      (ret = 0 ∧ ∀ i, i < resolvedCount toks → 0 ≤ (env.exec (k + i)).statusCode)) := by
  induction toks generalizing k ret with
  | nil => simp [runTokens, resolvedCount]
  | cons tok rest ih =>
    cases hL : Lookup tok with
    | none =>
      have hstep : (runTokens env (tok :: rest) k ret).2 = (runTokens env rest k ret).2 := by
        simp [runTokens, processToken, hL]
      rw [hstep, resolvedCount_cons_none tok rest hL]
      exact ih k ret
    | some spec =>
      by_cases hs : (env.exec k).statusCode < 0
      · have hstep : (runTokens env (tok :: rest) k ret).2
            = (runTokens env rest (k + 1) 1).2 := by
          simp [runTokens, processToken, hL, hs]
        rw [hstep, runTokens_ret_one env rest (k + 1),
          resolvedCount_cons_some tok rest spec hL]
        constructor
        · intro hc; exact absurd hc Nat.one_ne_zero
        · rintro ⟨h0, H⟩
          have h00 := H 0 (by omega)
          rw [Nat.add_zero] at h00
          omega
      · have hstep : (runTokens env (tok :: rest) k ret).2
            = (runTokens env rest (k + 1) ret).2 := by
          by_cases hc : (env.exec k).contentLength ≤ 0 <;>
            simp [runTokens, processToken, hL, hs, hc]
        rw [hstep, ih (k + 1) ret, resolvedCount_cons_some tok rest spec hL]
        constructor
        · rintro ⟨h0, H⟩
          refine ⟨h0, ?_⟩
          intro i hi
          cases i with
          | zero => rw [Nat.add_zero]; omega
          | succ j =>
            have hj := H j (by omega)
            have e : k + 1 + j = k + (j + 1) := by omega
            rwa [e] at hj
        · rintro ⟨h0, H⟩
          refine ⟨h0, ?_⟩
          intro i hi
          have hj := H (i + 1) (by omega)
          have e : k + (i + 1) = k + 1 + i := by omega
          rwa [e] at hj

theorem callsOf_map_out (l : List (List Nat)) : callsOf (l.map Ev.out) = [] := by
  simp [callsOf, Function.comp_def]

theorem maxLenSets_map_out (l : List (List Nat)) : maxLenSets (l.map Ev.out) = [] := by
  simp [maxLenSets, Function.comp_def]

theorem outsOf_map_out (l : List (List Nat)) : outsOf (l.map Ev.out) = l := by
  simp [outsOf, Function.comp_def]

theorem errsOf_map_out (l : List (List Nat)) : errsOf (l.map Ev.out) = [] := by
  simp [errsOf, Function.comp_def]

theorem main_cond_false (opts : List Opt)
    (h1 : (parseOpts opts).helpFlag = false)
    (h2 : (parseOpts opts).server ≠ none)
    (h3 : ¬ (parseOpts opts).port < 0) :
    ¬ ((parseOpts opts).helpFlag = true ∨ (parseOpts opts).server = none
        ∨ (parseOpts opts).port < 0) := by
  rintro (hc | hc | hc)
  · rw [h1] at hc; cases hc
  · exact h2 hc
  · exact h3 hc

theorem Main_exec_path (env : Env) (prog : List Nat) (opts : List Opt)
    (toks : List (List Nat))
    (h1 : (parseOpts opts).helpFlag = false)
    (h2 : (parseOpts opts).server ≠ none)
    (h3 : ¬ (parseOpts opts).port < 0)
    (h4 : ¬ env.setParametersResult < 0) :
    Main env prog opts toks =
      ((runTokens env toks 0 (parseOpts opts).retCode).2,
        Ev.setParameters ((parseOpts opts).server.getD []) (parseOpts opts).port
            (parseOpts opts).configFile
          :: Ev.setMaxContentLength 536870912
          :: (runTokens env toks 0 (parseOpts opts).retCode).1) := by
  simp only [Main]
  rw [if_neg (main_cond_false opts h1 h2 h3), if_neg h4]

theorem Main_setup_failure (env : Env) (prog : List Nat) (opts : List Opt)
    (toks : List (List Nat))
    (h1 : (parseOpts opts).helpFlag = false)
    (h2 : (parseOpts opts).server ≠ none)
    (h3 : ¬ (parseOpts opts).port < 0)
    (h4 : env.setParametersResult < 0) :
    Main env prog opts toks =
      (1, [Ev.setParameters ((parseOpts opts).server.getD []) (parseOpts opts).port
            (parseOpts opts).configFile]) := by
  simp only [Main]
  rw [if_neg (main_cond_false opts h1 h2 h3), if_pos h4]

/-! ## Claims -/

/-- Claim C1, counterexample: the token bogus does not resolve against the
registry, yet a run whose only token is bogus (host and port given, every
issued remote call succeeding vacuously) exits with code 0, not 1 as the
claim requires for a token sequence containing an unregistered token: the
dispatch loop prints the no-such-command line without touching theRetCode. -/
theorem C1_counterexample :
    Lookup (bytes "bogus") = none
    ∧ (Main env0 (bytes "qfsadmin")
        [Opt.server (bytes "h"), Opt.portOpt (bytes "0")] [bytes "bogus"]).1 = 0 := by
  constructor
  · decide
  · decide

/-- Claim C1, amended: on the execution path (help not requested, host
present, port non-negative, collaborator configuration succeeded) the final
exit code is 0 if and only if option parsing saw no unrecognized option and
every remote call issued returned a non-negative status code; unresolved
tokens do not affect the exit code. -/
theorem C1_exit_code (env : Env) (prog : List Nat) (opts : List Opt)
    (toks : List (List Nat))
    (h1 : (parseOpts opts).helpFlag = false)
    (h2 : (parseOpts opts).server ≠ none)
    (h3 : ¬ (parseOpts opts).port < 0)
    (h4 : ¬ env.setParametersResult < 0) :
    ((Main env prog opts toks).1 = 0 ↔
      ((parseOpts opts).retCode = 0
        ∧ ∀ i, i < resolvedCount toks → 0 ≤ (env.exec i).statusCode)) := by
  rw [Main_exec_path env prog opts toks h1 h2 h3 h4]
  rw [runTokens_snd_eq_zero env toks 0 (parseOpts opts).retCode]
  simp

/-- Witness for C1_exit_code at a concrete input: one resolved token whose
call succeeds, no unrecognized option, exit code 0. -/
theorem C1_exit_code_witness :
    ((Main env0 (bytes "qfsadmin")
        [Opt.server (bytes "h"), Opt.portOpt (bytes "0")] [bytes "open_files"]).1 = 0 ↔
      ((parseOpts [Opt.server (bytes "h"), Opt.portOpt (bytes "0")]).retCode = 0
        ∧ ∀ i, i < resolvedCount [bytes "open_files"] → 0 ≤ (env0.exec i).statusCode)) :=
  C1_exit_code env0 (bytes "qfsadmin")
    [Opt.server (bytes "h"), Opt.portOpt (bytes "0")] [bytes "open_files"]
    (by decide) (by decide) (by decide) (by decide)

/-- Claim C2, counterexample: for a resolved command with statusCode 0 and
contentLength 0 the program writes the line keyed by the lowercase registry
key (check_leases OK), not the uppercase canonical display name
(CHECK_LEASES OK) the claim requires: line 215 of the source streams
theIt-first, the map key, not the stored display name. -/
theorem C2_counterexample :
    (Lookup (bytes "check_leases")).map CommandSpec.displayName
        = some (bytes "CHECK_LEASES")
    ∧ outsOf (Main env0 (bytes "qfsadmin")
        [Opt.server (bytes "h"), Opt.portOpt (bytes "0")] [bytes "check_leases"]).2
        = [bytes "check_leases OK\n"]
    ∧ bytes "check_leases OK\n" ≠ bytes "CHECK_LEASES OK\n" := by
  refine ⟨by decide, by decide, by decide⟩

/-- Claim C2, amended: for every resolved command whose remote call returns a
non-negative status and contentLength at most 0, the dispatch step writes
exactly one line to standard output, namely the lowercased token (the
normalized registry key) followed by space OK and a newline, and writes
nothing to the error channel and no log record for that command. -/
theorem C2_ok_line (env : Env) (k : Nat) (tok : List Nat) (spec : CommandSpec)
    (h1 : Lookup tok = some spec)
    (h2 : ¬ (env.exec k).statusCode < 0)
    (h3 : (env.exec k).contentLength ≤ 0) :
    outsOf (processToken env k tok).events = [ToLower tok ++ bytes " OK" ++ [10]]
    ∧ errsOf (processToken env k tok).events = []
    ∧ logsOf (processToken env k tok).events = [] := by
  refine ⟨?_, ?_, ?_⟩ <;> simp [processToken, h1, h2, h3, outsOf, errsOf, logsOf]

/-- Witness for C2_ok_line: the check_leases command against a collaborator
returning status 0 and no content. -/
theorem C2_ok_line_witness :
    outsOf (processToken env0 0 (bytes "check_leases")).events
        = [ToLower (bytes "check_leases") ++ bytes " OK" ++ [10]]
    ∧ errsOf (processToken env0 0 (bytes "check_leases")).events = []
    ∧ logsOf (processToken env0 0 (bytes "check_leases")).events = [] :=
  C2_ok_line env0 0 (bytes "check_leases")
    ⟨bytes "CHECK_LEASES", MetaOp.CHECK_LEASES, bytes "debug: run chunk leases check"⟩
    (by decide) (by decide) (by decide)

/-- Claim C3, counterexample: with help requested and host missing the
program exits 0, not 1 as the claim requires for missing required fields;
and with help not requested (empty option list) the full command listing
still goes to standard output, while the error channel receives only the
usage banner, contradicting the claimed routing of the listing to the error
channel. -/
theorem C3_counterexample :
    (parseOpts [Opt.help]).server = none
    ∧ (Main env0 (bytes "qfsadmin") [Opt.help] []).1 = 0
    ∧ outsOf (Main env0 (bytes "qfsadmin") ([] : List Opt) []).2 = cmdHelpAllLines
    ∧ errsOf (Main env0 (bytes "qfsadmin") ([] : List Opt) []).2
        = [usageText (bytes "qfsadmin")] := by
  refine ⟨by decide, by decide, by decide, by decide⟩

/-- Claim C3, amended: if help is requested, or the host is missing, or the
port is negative, the program issues no remote call and never sets the
content-length bound; the usage banner goes to standard output when help was
requested and to the error channel otherwise, while the command listing
always goes to standard output; the exit code is theRetCode (1 exactly when
an unrecognized option was supplied) when help was requested, even if host
or port is missing, and 1 otherwise. -/
theorem C3_help_surface (env : Env) (prog : List Nat) (opts : List Opt)
    (toks : List (List Nat))
    (h : (parseOpts opts).helpFlag = true ∨ (parseOpts opts).server = none
        ∨ (parseOpts opts).port < 0) :
    callsOf (Main env prog opts toks).2 = []
    ∧ maxLenSets (Main env prog opts toks).2 = []
    ∧ outsOf (Main env prog opts toks).2 =
        (if (parseOpts opts).helpFlag then [usageText prog] else []) ++ cmdHelpAllLines
    ∧ errsOf (Main env prog opts toks).2 =
        (if (parseOpts opts).helpFlag then [] else [usageText prog])
    ∧ (Main env prog opts toks).1 =
        (if (parseOpts opts).helpFlag then (parseOpts opts).retCode else 1) := by
  have hm : Main env prog opts toks =
      ((if (parseOpts opts).helpFlag then (parseOpts opts).retCode else 1),
        helpEvents (parseOpts opts).helpFlag prog) := by
    simp only [Main]
    rw [if_pos h]
  rw [hm]
  cases hf : (parseOpts opts).helpFlag <;>
    simp [helpEvents, hf, callsOf, maxLenSets, outsOf, errsOf, Function.comp_def]

/-- Witness for C3_help_surface: explicit help with no other option. -/
theorem C3_help_surface_witness :
    callsOf (Main env0 (bytes "qfsadmin") [Opt.help] []).2 = []
    ∧ maxLenSets (Main env0 (bytes "qfsadmin") [Opt.help] []).2 = []
    ∧ outsOf (Main env0 (bytes "qfsadmin") [Opt.help] []).2 =
        (if (parseOpts [Opt.help]).helpFlag then [usageText (bytes "qfsadmin")] else [])
          ++ cmdHelpAllLines
    ∧ errsOf (Main env0 (bytes "qfsadmin") [Opt.help] []).2 =
        (if (parseOpts [Opt.help]).helpFlag then [] else [usageText (bytes "qfsadmin")])
    ∧ (Main env0 (bytes "qfsadmin") [Opt.help] []).1 =
        (if (parseOpts [Opt.help]).helpFlag then (parseOpts [Opt.help]).retCode else 1) :=
  C3_help_surface env0 (bytes "qfsadmin") [Opt.help] [] (by decide)

/-- Claim C4: on the execution path the run never short-circuits: the remote
calls recorded in the whole trace are exactly one per resolved token, tagged
with the resolved opcode and display name, in token order, and none for
unresolved tokens — regardless of the outcomes the collaborator returns, so
an unresolved token or a failing call never suppresses later calls. -/
theorem C4_sequential_calls (env : Env) (prog : List Nat) (opts : List Opt)
    (toks : List (List Nat))
    (h1 : (parseOpts opts).helpFlag = false)
    (h2 : (parseOpts opts).server ≠ none)
    (h3 : ¬ (parseOpts opts).port < 0)
    (h4 : ¬ env.setParametersResult < 0) :
    callsOf (Main env prog opts toks).2 = resolvedCalls toks := by
  rw [Main_exec_path env prog opts toks h1 h2 h3 h4]
  rw [callsOf_cons_setParameters, callsOf_cons_setMax, callsOf_runTokens]

/-- Witness for C4_sequential_calls: the spec's example token sequence
open_files, bogus, check_leases produces exactly the two calls for the
resolved tokens, in order, even though every call of env5 fails. -/
theorem C4_sequential_calls_witness :
    resolvedCalls [bytes "open_files", bytes "bogus", bytes "check_leases"] =
      [(MetaOp.OPEN_FILES, bytes "OPEN_FILES"),
        (MetaOp.CHECK_LEASES, bytes "CHECK_LEASES")]
    ∧ callsOf (Main env5 (bytes "qfsadmin")
        [Opt.server (bytes "h"), Opt.portOpt (bytes "0")]
        [bytes "open_files", bytes "bogus", bytes "check_leases"]).2 =
      resolvedCalls [bytes "open_files", bytes "bogus", bytes "check_leases"] :=
  ⟨by decide,
    C4_sequential_calls env5 (bytes "qfsadmin")
      [Opt.server (bytes "h"), Opt.portOpt (bytes "0")]
      [bytes "open_files", bytes "bogus", bytes "check_leases"]
      (by decide) (by decide) (by decide) (by decide)⟩

/-- Claim C5: a resolved command whose remote call returns a negative status
produces exactly one error-level log record, the returned statusMessage
followed by the literal text space-error-colon-space followed by the
collaborator-decoded string for that status code; the step marks the run
failed, and for any continuation the loop still processes the remaining
tokens and finishes with theRetCode 1. -/
theorem C5_remote_failure (env : Env) (k : Nat) (tok : List Nat) (spec : CommandSpec)
    (h1 : Lookup tok = some spec)
    (h2 : (env.exec k).statusCode < 0) :
    logsOf (processToken env k tok).events =
      [(env.exec k).statusMsg ++ bytes " error: "
        ++ env.errorCodeToStr (env.exec k).statusCode]
    ∧ (processToken env k tok).failed = true
    ∧ (∀ (rest : List (List Nat)) (ret : Nat),
        (runTokens env (tok :: rest) k ret).1 =
          (processToken env k tok).events ++ (runTokens env rest (k + 1) 1).1
        ∧ (runTokens env (tok :: rest) k ret).2 = 1) := by
  refine ⟨?_, ?_, ?_⟩
  · simp [processToken, h1, h2, logsOf]
  · simp [processToken, h1, h2]
  · intro rest ret
    constructor
    · simp [runTokens, processToken, h1, h2]
    · simp [runTokens, processToken, h1, h2, runTokens_ret_one]

/-- Witness for C5_remote_failure: env5 returns statusCode -5 with
statusMessage boom; the log record contains boom and the decoded string, and
a one-token run finishes with theRetCode 1. -/
theorem C5_remote_failure_witness :
    logsOf (processToken env5 0 (bytes "check_leases")).events =
      [(env5.exec 0).statusMsg ++ bytes " error: "
        ++ env5.errorCodeToStr (env5.exec 0).statusCode]
    ∧ (processToken env5 0 (bytes "check_leases")).failed = true
    ∧ (runTokens env5 [bytes "check_leases"] 0 0).2 = 1 := by
  have h := C5_remote_failure env5 0 (bytes "check_leases")
    ⟨bytes "CHECK_LEASES", MetaOp.CHECK_LEASES, bytes "debug: run chunk leases check"⟩
    (by decide) (by decide)
  exact ⟨h.1, h.2.1, (h.2.2 [] 0).2⟩

/-- Claim C6: a resolved command whose remote call returns a non-negative
status and a positive contentLength (with the buffer holding at least that
many bytes, as MonClient guarantees) writes to standard output exactly one
chunk, the first contentLength bytes of the content buffer, of length exactly
contentLength, with nothing on the error channel and no log record. -/
theorem C6_payload (env : Env) (k : Nat) (tok : List Nat) (spec : CommandSpec)
    (h1 : Lookup tok = some spec)
    (h2 : ¬ (env.exec k).statusCode < 0)
    (h3 : ¬ (env.exec k).contentLength ≤ 0)
    (h4 : (env.exec k).contentLength.toNat ≤ (env.exec k).contentBuf.length) :
    outsOf (processToken env k tok).events =
      [(env.exec k).contentBuf.take (env.exec k).contentLength.toNat]
    ∧ ((env.exec k).contentBuf.take (env.exec k).contentLength.toNat).length
        = (env.exec k).contentLength.toNat
    ∧ errsOf (processToken env k tok).events = []
    ∧ logsOf (processToken env k tok).events = [] := by
  refine ⟨?_, ?_, ?_, ?_⟩
  · simp [processToken, h1, h2, h3, outsOf]
  · rw [List.length_take]
    exact min_eq_left h4
  · simp [processToken, h1, h2, h3, errsOf]
  · simp [processToken, h1, h2, h3, logsOf]

/-- Witness for C6_payload: env6 returns a 5-byte payload with
contentLength 5; the output is exactly those 5 bytes. -/
theorem C6_payload_witness :
    outsOf (processToken env6 0 (bytes "open_files")).events =
      [(env6.exec 0).contentBuf.take (env6.exec 0).contentLength.toNat]
    ∧ ((env6.exec 0).contentBuf.take (env6.exec 0).contentLength.toNat).length
        = (env6.exec 0).contentLength.toNat
    ∧ errsOf (processToken env6 0 (bytes "open_files")).events = []
    ∧ logsOf (processToken env6 0 (bytes "open_files")).events = [] :=
  C6_payload env6 0 (bytes "open_files")
    ⟨bytes "OPEN_FILES", MetaOp.OPEN_FILES, bytes "debug: list all chunk leases"⟩
    (by decide) (by decide) (by decide) (by decide)

set_option maxRecDepth 8192 in
/-- Claim C7: every catalog entry is found under its name; resolution only
depends on the ToLower-normalization of the token, so the all-lowercase,
all-uppercase and every mixed-case spelling of a catalog name resolve to the
identical CommandSpec; and the normalization lowercases exactly the ASCII
uppercase letters, passing every other byte — in particular every non-ASCII
byte 128-255 — through unchanged. -/
theorem C7_case_insensitive :
    (∀ e ∈ catalog, (Lookup (bytes e.1)).isSome = true)
    ∧ (∀ (name : String) (s : List Nat),
        ToLower s = ToLower (bytes name) → Lookup s = Lookup (bytes name))
    ∧ (∀ b, b < 256 → 65 ≤ b → b ≤ 90 → toLowerByte b = b + 32)
    ∧ (∀ b, b < 256 → ¬ (65 ≤ b ∧ b ≤ 90) → toLowerByte b = b)
    ∧ (∀ b, b < 256 → 127 < b → toLowerByte b = b) := by
  refine ⟨by decide, ?_, by decide, by decide, by decide⟩
  intro name s h
  simp only [Lookup, h]

/-- Witness for C7_case_insensitive: the mixed-case spelling of check_leases
resolves identically to the canonical uppercase name, which is registered;
an uppercase letter is lowercased while an underscore and a non-ASCII byte
are unchanged. -/
theorem C7_case_insensitive_witness :
    (Lookup (bytes "CHECK_LEASES")).isSome = true
    ∧ Lookup (bytes "ChEcK_LeAsEs") = Lookup (bytes "CHECK_LEASES")
    ∧ toLowerByte 65 = 65 + 32
    ∧ toLowerByte 95 = 95
    ∧ toLowerByte 200 = 200 :=
  ⟨C7_case_insensitive.1
      ("CHECK_LEASES", MetaOp.CHECK_LEASES, "debug: run chunk leases check")
      (by decide),
    C7_case_insensitive.2.1 "CHECK_LEASES" (bytes "ChEcK_LeAsEs") (by decide),
    C7_case_insensitive.2.2.1 65 (by decide) (by decide) (by decide),
    C7_case_insensitive.2.2.2.1 95 (by decide) (by decide),
    C7_case_insensitive.2.2.2.2 200 (by decide) (by decide)⟩

set_option maxRecDepth 8192 in
/-- Claim C8: the registry holds exactly 8 entries with pairwise-distinct
normalized keys mapped to pairwise-distinct opcodes, kept in strictly
ascending lexicographic key order (the iteration order of the help listing);
the listing has one line per entry, and each entry's line — its key
right-aligned to the maximum key width, then the separator, then the
description — occurs in the listing, every padded key filling exactly the
maximum key width. -/
theorem C8_registry :
    sOps.length = 8
    ∧ (sOps.map (fun e => e.1)).Nodup
    ∧ (sOps.map (fun e => e.2.opcode)).Nodup
    ∧ List.Pairwise (fun a b => strLt a.1 b.1 = true) sOps
    ∧ cmdHelpAllLines.length = 8
    ∧ (∀ e ∈ sOps,
        (padTo sMaxCmdNameLen e.1 ++ bytes " -- " ++ e.2.description ++ [10])
          ∈ cmdHelpAllLines
        ∧ (padTo sMaxCmdNameLen e.1).length = sMaxCmdNameLen) := by
  refine ⟨by decide, by decide, by decide, by decide, by decide, by decide⟩

/-- Witness for C8_registry: the check_leases entry is in the registry and
its rendered, width-aligned line is in the help listing. -/
theorem C8_registry_witness :
    ((bytes "check_leases",
        (⟨bytes "CHECK_LEASES", MetaOp.CHECK_LEASES,
          bytes "debug: run chunk leases check"⟩ : CommandSpec)) ∈ sOps)
    ∧ ((padTo sMaxCmdNameLen (bytes "check_leases") ++ bytes " -- "
          ++ bytes "debug: run chunk leases check" ++ [10]) ∈ cmdHelpAllLines
        ∧ (padTo sMaxCmdNameLen (bytes "check_leases")).length = sMaxCmdNameLen) :=
  ⟨by decide,
    C8_registry.2.2.2.2.2
      (bytes "check_leases",
        ⟨bytes "CHECK_LEASES", MetaOp.CHECK_LEASES,
          bytes "debug: run chunk leases check"⟩)
      (by decide)⟩

theorem atoiDigits_not_digit (b : Nat) (r : List Nat) (h : isDigitB b = false) :
    atoiDigits (b :: r) 0 = 0 := by
  by_cases hb : 48 ≤ b ∧ b ≤ 57
  · simp [isDigitB, hb] at h
  · simp [atoiDigits, hb]

theorem atoi_of_noLeadingDigits (s : List Nat) (h : noLeadingDigits s = true) :
    atoi s = 0 := by
  unfold noLeadingDigits at h
  unfold atoi
  generalize s.dropWhile isSpaceB = s1 at h ⊢
  cases s1 with
  | nil => rfl
  | cons b rest =>
    simp only [noLeadSigned] at h
    simp only [atoiSigned]
    by_cases hb : b = 45 ∨ b = 43
    · rw [if_pos hb] at h
      have hz : atoiDigits rest 0 = 0 := by
        cases rest with
        | nil => rfl
        | cons c cs =>
          have hc : isDigitB c = false := by simpa [noDigitHead] using h
          exact atoiDigits_not_digit c cs hc
      rcases hb with hb | hb <;> subst hb <;> simp [hz]
    · have hb' : ¬ (b = 45 ∨ b = 43) := hb
      rw [if_neg hb'] at h
      have hbd : isDigitB b = false := by simpa using h
      push_neg at hb'
      rw [if_neg hb'.1, if_neg hb'.2]
      simp [atoiDigits_not_digit b rest hbd]

theorem parseOpts_server_port (host arg : List Nat) :
    parseOpts [Opt.server host, Opt.portOpt arg] =
      ⟨false, some host, atoi arg, none, false, 0⟩ := rfl

/-- Claim C9: a port option argument with no leading digits (not a valid
number) is converted by atoi to 0; 0 passes the negative-port check, so the
run is not rejected as an invocation error: it proceeds to collaborator
configuration and then to command execution, exactly as with a genuine
port 0. -/
theorem C9_invalid_port (env : Env) (prog host arg : List Nat)
    (toks : List (List Nat))
    (h : noLeadingDigits arg = true)
    (hset : ¬ env.setParametersResult < 0) :
    atoi arg = 0
    ∧ (parseOpts [Opt.server host, Opt.portOpt arg]).port = 0
    ∧ (Main env prog [Opt.server host, Opt.portOpt arg] toks).2 =
        Ev.setParameters host 0 none :: Ev.setMaxContentLength 536870912 ::
          (runTokens env toks 0 0).1
    ∧ (Main env prog [Opt.server host, Opt.portOpt arg] toks).1 =
        (runTokens env toks 0 0).2 := by
  have h0 : atoi arg = 0 := atoi_of_noLeadingDigits arg h
  have hp : parseOpts [Opt.server host, Opt.portOpt arg] =
      ⟨false, some host, 0, none, false, 0⟩ := by
    rw [parseOpts_server_port, h0]
  have h1 : (parseOpts [Opt.server host, Opt.portOpt arg]).helpFlag = false := by
    rw [hp]
  have h2 : (parseOpts [Opt.server host, Opt.portOpt arg]).server ≠ none := by
    rw [hp]; simp
  have h3 : ¬ (parseOpts [Opt.server host, Opt.portOpt arg]).port < 0 := by
    rw [hp]; simp
  have hm := Main_exec_path env prog [Opt.server host, Opt.portOpt arg] toks h1 h2 h3 hset
  rw [hp] at hm
  exact ⟨h0, by rw [hp], by simp [hm], by simp [hm]⟩

/-- Witness for C9_invalid_port: the non-numeric port argument abc with a
collaborator that configures successfully. -/
theorem C9_invalid_port_witness :
    atoi (bytes "abc") = 0
    ∧ (parseOpts [Opt.server (bytes "h"), Opt.portOpt (bytes "abc")]).port = 0
    ∧ (Main env0 (bytes "qfsadmin") [Opt.server (bytes "h"), Opt.portOpt (bytes "abc")]
        [bytes "open_files"]).2 =
        Ev.setParameters (bytes "h") 0 none :: Ev.setMaxContentLength 536870912 ::
          (runTokens env0 [bytes "open_files"] 0 0).1
    ∧ (Main env0 (bytes "qfsadmin") [Opt.server (bytes "h"), Opt.portOpt (bytes "abc")]
        [bytes "open_files"]).1 =
        (runTokens env0 [bytes "open_files"] 0 0).2 :=
  C9_invalid_port env0 (bytes "qfsadmin") (bytes "h") (bytes "abc")
    [bytes "open_files"] (by decide) (by decide)

/-- Claim C10: on the execution path, when collaborator configuration
succeeds the run records exactly one SetMaxContentLength call, with value
536870912 (512 MiB), placed immediately after the setParameters event and
before the dispatch loop: the loop's events contain the remote calls of all
resolved tokens and no SetMaxContentLength, so the single bound is set
before any command token is processed and is the same for every command;
when configuration fails the bound is never set. -/
theorem C10_max_content (env : Env) (prog : List Nat) (opts : List Opt)
    (toks : List (List Nat))
    (h1 : (parseOpts opts).helpFlag = false)
    (h2 : (parseOpts opts).server ≠ none)
    (h3 : ¬ (parseOpts opts).port < 0) :
    (¬ env.setParametersResult < 0 →
      maxLenSets (Main env prog opts toks).2 = [536870912]
      ∧ (Main env prog opts toks).2 =
          Ev.setParameters ((parseOpts opts).server.getD []) (parseOpts opts).port
              (parseOpts opts).configFile
            :: Ev.setMaxContentLength 536870912
            :: (runTokens env toks 0 (parseOpts opts).retCode).1
      ∧ callsOf (runTokens env toks 0 (parseOpts opts).retCode).1 = resolvedCalls toks
      ∧ maxLenSets (runTokens env toks 0 (parseOpts opts).retCode).1 = [])
    ∧ (env.setParametersResult < 0 → maxLenSets (Main env prog opts toks).2 = []) := by
  constructor
  · intro h4
    rw [Main_exec_path env prog opts toks h1 h2 h3 h4]
    refine ⟨?_, rfl, callsOf_runTokens env toks 0 _, maxLenSets_runTokens env toks 0 _⟩
    rw [maxLenSets_cons_setParameters, maxLenSets_cons_setMax, maxLenSets_runTokens]
  · intro h4
    rw [Main_setup_failure env prog opts toks h1 h2 h3 h4]
    simp [maxLenSets]

/-- Witness for C10_max_content: a successful configuration sets the bound
exactly once to 512 MiB; a failed configuration never sets it. -/
theorem C10_max_content_witness :
    maxLenSets (Main env0 (bytes "qfsadmin")
        [Opt.server (bytes "h"), Opt.portOpt (bytes "0")] [bytes "open_files"]).2
      = [536870912]
    ∧ maxLenSets (Main envBad (bytes "qfsadmin")
        [Opt.server (bytes "h"), Opt.portOpt (bytes "0")] [bytes "open_files"]).2
      = [] :=
  ⟨((C10_max_content env0 (bytes "qfsadmin")
      [Opt.server (bytes "h"), Opt.portOpt (bytes "0")] [bytes "open_files"]
      (by decide) (by decide) (by decide)).1 (by decide)).1,
    (C10_max_content envBad (bytes "qfsadmin")
      [Opt.server (bytes "h"), Opt.portOpt (bytes "0")] [bytes "open_files"]
      (by decide) (by decide) (by decide)).2 (by decide)⟩

end QfsAdmin
